import Mathlib

/-!
Verification model of the HMI State Controller of `sdl_core`
(`src/components/application_manager`).

The controller implementation (`StateControllerImpl`, the `HmiState`
subclasses) is not part of the repository fragment under `src/`; only its
unit tests are (`state_controller_test.cc`).  The definitions below are
therefore modelled from the specification (`spec.md` §3–§4.6), with the
behaviour pinned down by the expected-result tables and mock expectations
of the test file wherever those decide it (the per-layer projections, the
order of validity/postponement checks, the source state of the level-only
`SetRegularState` overload).  Each definition's doc comment names its
source.
-/

namespace SdlCore

/-- `mobile_apis::HMILevel` (spec §3; test file `HMILevel` namespace). -/
inductive HMILevel where
  | FULL
  | LIMITED
  | BACKGROUND
  | NONE
  | INVALID
  deriving DecidableEq, Repr

/-- `mobile_apis::AudioStreamingState` (spec §3). -/
inductive AudioStreamingState where
  | AUDIBLE
  | ATTENUATED
  | NOT_AUDIBLE
  | INVALID
  deriving DecidableEq, Repr

/-- `mobile_apis::VideoStreamingState` (spec §3). -/
inductive VideoStreamingState where
  | STREAMABLE
  | NOT_STREAMABLE
  | INVALID
  deriving DecidableEq, Repr

/-- `mobile_apis::SystemContext` (spec §3). -/
inductive SystemContext where
  | MAIN
  | VRSESSION
  | MENU
  | HMI_OBSCURED
  | ALERT
  | INVALID
  deriving DecidableEq, Repr

/-- `am::HmiState::StateID` (spec §3; test file `FillStatesLists`). -/
inductive StateID where
  | REGULAR
  | CURRENT
  | POSTPONED
  | VR_SESSION
  | TTS_SESSION
  | PHONE_CALL
  | SAFETY_MODE
  | VIDEO_STREAMING
  | NAVI_STREAMING
  | AUDIO_SOURCE
  | EMBEDDED_NAVI
  | DEACTIVATE_HMI
  deriving DecidableEq, Repr

/-- An `am::HmiState` value.  Equality in the source
(`operator==` in the test file, lines 84–93) compares exactly these four
fields, so the Lean structure carries exactly them; the `state_id` tag and
the `parent` link of the C++ class are represented by the layer list of
`App` and the fold in `App.current`. -/
structure HmiState where
  level : HMILevel
  audio : AudioStreamingState
  video : VideoStreamingState
  context : SystemContext
  deriving DecidableEq, Repr

/-- A state is valid when no field is `INVALID` (spec §3, §7 InvalidState;
test list `common_invalid_states_`). -/
def HmiState.isValid (s : HmiState) : Bool :=
  s.level ≠ HMILevel.INVALID && s.audio ≠ AudioStreamingState.INVALID &&
    s.video ≠ VideoStreamingState.INVALID && s.context ≠ SystemContext.INVALID

/-- Application capability flags (spec §3 Application; test `ConfigureApp`). -/
structure Caps where
  is_media : Bool
  is_navi : Bool
  is_projection : Bool
  is_voice_comm : Bool
  deriving DecidableEq, Repr

/-- `IsAudioApplication` = media ∨ navi ∨ voice_comm
(test `ConfigureApp`, line 744). -/
def Caps.isAudio (c : Caps) : Bool :=
  c.is_media || c.is_navi || c.is_voice_comm

/-- `IsVideoApplication` = navi ∨ projection (test `ConfigureApp`, line 746). -/
def Caps.isVideo (c : Caps) : Bool :=
  c.is_navi || c.is_projection

/-- `a` and `b` share at least one exclusivity class among
MEDIA / NAVI / VOICE_COMM (spec §4.3 I2). -/
def Caps.sharesSome (a b : Caps) : Bool :=
  (a.is_media && b.is_media) || (a.is_navi && b.is_navi) ||
    (a.is_voice_comm && b.is_voice_comm)

/-- Every exclusivity class of `a` is also a class of `b`
("sharing *all* classes with the target", spec §4.3 I2). -/
def Caps.sharesAll (a b : Caps) : Bool :=
  (!a.is_media || b.is_media) && (!a.is_navi || b.is_navi) &&
    (!a.is_voice_comm || b.is_voice_comm)

/-- The same-application-type relation the audio conflict resolution of
the source uses, as the enabled conflict tests pin it: two applications
conflict in a class when both are navi, when both are voice-comm, or —
for the MEDIA class — when both are media applications with neither navi
nor voice-comm capability.  The MEDIA restriction is fixed by
`SetFullToAudioAppWhile3AudioAppsWithSameTypeInLimited` (lines 1947–1971)
and its FULL variant (lines 1973–1997): under a media+navi+vc target
taking FULL + AUDIBLE, the navi-only and vc-only LIMITED+AUDIBLE peers
are demoted while the media-only peer gets a single `RegularHmiState()`
read and keeps its state, although pure-media pairs do conflict
(`SetFullToAudioAppWhileSameTypeAudioAppIsInFull`,
`SetFullToAudioAppWhile1AudioAppWithSameTypeInLimitedAnd1SimpleAppInFull`). -/
def Caps.sameAudioType (a b : Caps) : Bool :=
  (a.is_navi && b.is_navi) || (a.is_voice_comm && b.is_voice_comm) ||
    (a.is_media && b.is_media && !a.is_navi && !a.is_voice_comm &&
      !b.is_navi && !b.is_voice_comm)

/-- One registered application: identity, capabilities, its state stack
(Regular layer, set of active Temporary layer ids, optional Postponed
layer) and the resumption flag read by the controller
(spec §3 Application / StateStack; test mock `MockApplication`). -/
structure App where
  app_id : Nat
  caps : Caps
  regular : HmiState
  temps : List StateID
  postponed : Option HmiState
  is_resuming : Bool
  deriving DecidableEq, Repr

/-- Canonical composition order of Temporary layers (spec §4.1: "fold from
bottom (Regular) upward through all active Temporary layers in the
canonical order: PHONE_CALL, SAFETY_MODE, VR_SESSION, TTS_SESSION,
NAVI_STREAMING/VIDEO_STREAMING"; the ids the spec leaves unordered are
appended at the positions their semantics suggest). -/
def canonicalOrder : List StateID :=
  [StateID.PHONE_CALL, StateID.SAFETY_MODE, StateID.AUDIO_SOURCE,
   StateID.EMBEDDED_NAVI, StateID.VR_SESSION, StateID.TTS_SESSION,
   StateID.NAVI_STREAMING, StateID.VIDEO_STREAMING, StateID.DEACTIVATE_HMI]

/-- Audio ducking with attenuation supported, as the expected-result table
`PrepareStateResultsForAttenuated` (lines 329–356) pins it row by row:
AUDIBLE is ducked to ATTENUATED, ATTENUATED stays ATTENUATED, and
NOT_AUDIBLE stays NOT_AUDIBLE (the `(FULL, NOT_AUDIBLE)` input comes out
`(FULL, NOT_AUDIBLE)`). -/
def attenuate (p : HmiState) : HmiState :=
  if p.audio = AudioStreamingState.AUDIBLE ||
      p.audio = AudioStreamingState.ATTENUATED then
    { p with audio := AudioStreamingState.ATTENUATED }
  else
    { p with audio := AudioStreamingState.NOT_AUDIBLE }

/-- Projection a Temporary layer applies on top of the layer beneath it
(spec §4.1 table), with every conditional pinned by the expected-result
tables of the test file: `PrepareCommonStateResults` /
`PrepareVRTTSHMIStateResults` (lines 286–484) show VR, TTS and safety
mode silence audio and pass the system context through unchanged
(inputs with contexts VRSESSION, MENU, HMI_OBSCURED, ALERT come out with
the same contexts); `PrepareStateResultsForAttenuated` pins the
attenuated TTS/streaming behaviour (see `attenuate`);
`PreparePhoneCallHMIStateResults` (lines 363–430) keeps levels NONE and
BACKGROUND unchanged and clamps a media app to BACKGROUND and a navi app
to LIMITED only from above; `PrepareVideoStreamingHmiStateResults`
(lines 491–586) keeps a non-navi app's level and silences its audio like
TTS, passing a navi app through unchanged.  `att` is
`is_attenuated_supported()`. -/
def applyProjection (att : Bool) (caps : Caps) (sid : StateID)
    (p : HmiState) : HmiState :=
  match sid with
  | StateID.VR_SESSION =>
      { p with audio := AudioStreamingState.NOT_AUDIBLE }
  | StateID.TTS_SESSION =>
      if att then attenuate p
      else { p with audio := AudioStreamingState.NOT_AUDIBLE }
  | StateID.AUDIO_SOURCE =>
      { p with audio := AudioStreamingState.NOT_AUDIBLE }
  | StateID.EMBEDDED_NAVI =>
      { p with audio := AudioStreamingState.NOT_AUDIBLE }
  | StateID.SAFETY_MODE =>
      { p with audio := AudioStreamingState.NOT_AUDIBLE }
  | StateID.PHONE_CALL =>
      if caps.is_navi then
        { p with level := if p.level = HMILevel.FULL then HMILevel.LIMITED
                          else p.level,
                 audio := AudioStreamingState.NOT_AUDIBLE }
      else if caps.is_media then
        { p with level := if p.level = HMILevel.FULL ||
                              p.level = HMILevel.LIMITED then
                            HMILevel.BACKGROUND
                          else p.level,
                 audio := AudioStreamingState.NOT_AUDIBLE }
      else
        p
  | StateID.NAVI_STREAMING =>
      if caps.is_navi then p
      else if att then attenuate p
      else { p with audio := AudioStreamingState.NOT_AUDIBLE }
  | StateID.VIDEO_STREAMING =>
      if caps.is_navi then p
      else if att then attenuate p
      else { p with audio := AudioStreamingState.NOT_AUDIBLE }
  | StateID.DEACTIVATE_HMI =>
      { p with level := HMILevel.NONE,
               audio := AudioStreamingState.NOT_AUDIBLE,
               video := VideoStreamingState.NOT_STREAMABLE }
  | _ => p

/-- `CurrentHmiState`: the composed Current state, a left fold of the
projections of the active Temporary layers over the Regular layer in the
canonical order (spec §4.1, §9 "composition is a left-fold"). -/
def App.current (att : Bool) (a : App) : HmiState :=
  canonicalOrder.foldl
    (fun s sid => if sid ∈ a.temps then applyProjection att a.caps sid s else s)
    a.regular

/-- Observable outbound calls of the controller (spec §6): the HMI-status
notification to the mobile endpoint, the platform-wide level-changed
callback, the ActivateApp request to the head unit, the audio-resume
notification, and the per-application `ResetDataInNone` side effect. -/
inductive Notif where
  | hmiStatus (app_id : Nat)
  | levelChanged (app_id : Nat) (oldLevel newLevel : HMILevel)
  | activateAppRequest (app_id correlation_id : Nat) (level : HMILevel)
  | onResumeAudioSource (app_id : Nat)
  | resetDataInNone (app_id : Nat)
  deriving DecidableEq, Repr

/-- Whole-controller state: the Registry in registration order, the
pending-activation map `(correlation_id ↦ (app_id, target regular))`
(spec §9), the fresh-correlation counter and the platform flag
`is_attenuated_supported()` (spec §6). -/
structure SCState where
  apps : List App
  pending : List (Nat × Nat × HmiState)
  nextCorrelation : Nat
  attenuated : Bool
  deriving DecidableEq, Repr

/-- Registry lookup `application(app_id)` (spec §4.2). -/
def SCState.lookup (st : SCState) (appId : Nat) : Option App :=
  st.apps.find? (fun a => a.app_id = appId)

/-- Replace one application's record in the Registry, keyed by app id. -/
def SCState.updateApp (st : SCState) (appId : Nat) (f : App → App) : SCState :=
  { st with apps := st.apps.map (fun a => if a.app_id = appId then f a else a) }

/-- `OnStateChanged(app, old_current, new_current)` (spec §4.4): emits the
HMI-level-changed callback and the HMI-status notification iff the two
composed states differ, and on such a change additionally fires
`ResetDataInNone` whenever the *new* level is NONE — regardless of the
old level, as `OnStateChangedWithDifferentStates` (lines 1384–1411) pins:
for every differing pair of states it expects `ResetDataInNone` exactly
once exactly when the new state's level is NONE, which includes
NONE-to-NONE pairs differing only in system context; equal states emit
nothing (`OnStateChangedWithEqualStates`). -/
def onStateChanged (appId : Nat) (oldS newS : HmiState) : List Notif :=
  if oldS ≠ newS then
    [Notif.levelChanged appId oldS.level newS.level, Notif.hmiStatus appId] ++
      (if newS.level = HMILevel.NONE then [Notif.resetDataInNone appId]
       else [])
  else []

/-- Whether the target's candidate Regular state grabs the audio channel:
an Audio application being granted AUDIBLE at FULL or LIMITED
(spec §4.3 I2). -/
def grantsAudio (targetCaps : Caps) (r : HmiState) : Bool :=
  targetCaps.isAudio && r.audio = AudioStreamingState.AUDIBLE &&
    (r.level = HMILevel.FULL || r.level = HMILevel.LIMITED)

/-- Whether an application's Regular state holds the audio channel:
AUDIBLE at level FULL or LIMITED (spec §4.3 I2). -/
def holdsAudio (a : App) : Bool :=
  a.regular.audio = AudioStreamingState.AUDIBLE &&
    (a.regular.level = HMILevel.FULL || a.regular.level = HMILevel.LIMITED)

/-- Demotion to `BACKGROUND + NOT_AUDIBLE`, keeping the remaining fields of
the old Regular state (spec §4.3). -/
def demoteBackground (s : HmiState) : HmiState :=
  { s with level := HMILevel.BACKGROUND,
           audio := AudioStreamingState.NOT_AUDIBLE }

/-- Demotion to `LIMITED` retaining `AUDIBLE` (spec §4.3 I1/I2). -/
def demoteLimitedAudible (s : HmiState) : HmiState :=
  { s with level := HMILevel.LIMITED, audio := AudioStreamingState.AUDIBLE }

/-- The I1 proviso (spec §4.3): some *other* Audio application of one of
`o`'s exclusivity classes already holds Regular level LIMITED in the
post-change world. -/
def limitedPeerExists (world : List App) (o : App) : Bool :=
  world.any (fun p => p.app_id ≠ o.app_id && p.caps.isAudio &&
    p.caps.sharesSome o.caps && p.regular.level = HMILevel.LIMITED)

/-- Modelled from the spec: the Conflict Resolver's decision for one other
application `o` when target `t` takes candidate Regular `r`
(`StateControllerImpl::HmiLevelConflictResolver`, absent from `src/`;
spec §4.3 I1/I2, with the same-type demotion pinned by the enabled
conflict tests).  `world` is the post-change snapshot (target's Regular
already replaced by `r`, spec §4.3 Algorithm).  Returns the demoted
Regular state, or `none` when `o` keeps its state:

* I2 on the visual conflict, an audible FULL grant against another
  audible FULL holder sharing a class: sharing *all* its classes with the
  target demotes it to BACKGROUND
  (`SetFullToAudioAppWhileSameTypeAudioAppIsInFull`); sharing some but
  not all demotes it to LIMITED retaining AUDIBLE (spec §4.3 I2,
  "some but not all classes").
* I2 on the audio channel, any other audible holder against an audible
  FULL or LIMITED grant: demoted to BACKGROUND + NOT_AUDIBLE exactly when
  it is of the same audio type as the target (see `Caps.sameAudioType`:
  the 3-audio-apps tests demote the navi-only and vc-only LIMITED holders
  but not the media-only one under a media+navi+vc target); otherwise its
  state is kept
  (`SetFullToAudioAppWhileSameTypeAudioAppIsInLimited`,
  `SetLimitedToAudioAppWhileSameTypeAudioAppIsInLimited`).
* I1, FULL grant against another FULL holder: a non-Audio holder goes to
  BACKGROUND; an Audio holder goes to LIMITED + AUDIBLE
  (`SetFullToAudioAppWhileAnotherTypeAudioAppIsInFull`) unless another
  Audio application of one of its classes already holds LIMITED, in which
  case it goes to BACKGROUND (spec §4.3 I1). -/
def resolveOne (world : List App) (t : App) (r : HmiState) (o : App) :
    Option HmiState :=
  if grantsAudio t.caps r && holdsAudio o && o.caps.sharesSome t.caps &&
      r.level = HMILevel.FULL && o.regular.level = HMILevel.FULL then
    if o.caps.sharesAll t.caps then
      some (demoteBackground o.regular)
    else
      some (demoteLimitedAudible o.regular)
  else if grantsAudio t.caps r && holdsAudio o &&
      o.caps.sameAudioType t.caps then
    some (demoteBackground o.regular)
  else if r.level = HMILevel.FULL && o.regular.level = HMILevel.FULL then
    if o.caps.isAudio then
      if limitedPeerExists world o then
        some (demoteBackground o.regular)
      else
        some (demoteLimitedAudible o.regular)
    else
      some (demoteBackground o.regular)
  else
    none

/-- The demotion the Conflict Resolver installs on one visited application
(the resolver visits every application as `std::for_each` over the
Registry, leaving the target alone). -/
def resolveApp (world : List App) (t : App) (r : HmiState) (o : App) : App :=
  if o.app_id = t.app_id then o
  else
    match resolveOne world t r o with
    | some s => { o with regular := s }
    | none => o

/-- Modelled from the spec: step 3 of `SetRegularState` (spec §4.4): run
the Conflict Resolver on the post-change world (target's Regular already
replaced, spec §4.3 Algorithm), atomically install the target's new
Regular and all demotions, and emit `OnStateChanged` notifications per
changed application — resolver-induced ones in Registry order first, the
target's own last (spec §5 Ordering guarantees). -/
def applyRegular (st : SCState) (t : App) (r : HmiState) :
    SCState × List Notif :=
  let world := st.apps.map
    (fun a => if a.app_id = t.app_id then { a with regular := r } else a)
  let demNotifs := world.flatMap (fun o =>
    if o.app_id = t.app_id then []
    else
      onStateChanged o.app_id (o.current st.attenuated)
        ((resolveApp world t r o).current st.attenuated))
  let targetNotifs :=
    onStateChanged t.app_id (t.current st.attenuated)
      (App.current st.attenuated { t with regular := r })
  ({ st with apps := world.map (resolveApp world t r) },
   demNotifs ++ targetNotifs)

/-- Modelled from the spec: `SetRegularState(app, new_regular,
request_activation)` (spec §4.4).  Order of checks as pinned by the tests:
unknown application and INVALID fields are silent no-ops checked before
anything else (`MoveAppFromValidStateToInvalid` asserts neither
`CurrentHmiState` nor `is_resuming` is consulted on an INVALID state);
then an active Temporary layer together with a resuming application
postpones the state with no notification
(`SetRegularStateToMediaAndNonMediaApps_VRStarted_SetPostponedState`);
then a FULL grant with `request_activation` dispatches an ActivateApp
request under a fresh correlation id and records the pending activation;
otherwise the state is applied through the Conflict Resolver. -/
def setRegularState (st : SCState) (appId : Nat) (r : HmiState)
    (requestActivation : Bool) : SCState × List Notif :=
  match st.lookup appId with
  | none => (st, [])
  | some a =>
    if ¬ r.isValid then
      (st, [])
    else if a.temps ≠ [] ∧ a.is_resuming then
      (st.updateApp appId (fun x => { x with postponed := some r }), [])
    else if requestActivation ∧ r.level = HMILevel.FULL then
      ({ st with
          pending := (st.nextCorrelation, appId, r) :: st.pending,
          nextCorrelation := st.nextCorrelation + 1 },
       [Notif.activateAppRequest appId st.nextCorrelation r.level])
    else
      applyRegular st a r

/-- The level-only overload `SetRegularState(app, level)`.  The test
`SetRegularStateWithNewHmiLvl` pins its shape: the missing fields are read
from the application's prior *Regular* state (`RegularHmiState()` is the
only state read before the transition) and a FULL level goes through the
ActivateApp request path (the test installs `SetBCActivateAppRequestToHMI`
for the FULL step and expects no direct state application).  The remaining
fields follow the spec's wording (§4.4 level-only convenience). -/
def setRegularStateWithLevel (st : SCState) (appId : Nat)
    (lvl : HMILevel) : SCState × List Notif :=
  match st.lookup appId with
  | none => (st, [])
  | some a =>
      setRegularState st appId
        { level := lvl, audio := a.regular.audio,
          video := a.regular.video, context := a.regular.context } true

/-- The level-only overload as the spec sentence for claim C9 words it:
"compose a full HmiState from (level, prior Current's audio/video/context),
then apply the rules above" — i.e. the missing fields come from the prior
*Current* (composed) state.  Kept separate so it can be compared with
`setRegularStateWithLevel`, the behaviour the test pins. -/
def setRegularStateWithLevelSpec (st : SCState) (appId : Nat)
    (lvl : HMILevel) : SCState × List Notif :=
  match st.lookup appId with
  | none => (st, [])
  | some a =>
      let cur := a.current st.attenuated
      setRegularState st appId
        { level := lvl, audio := cur.audio,
          video := cur.video, context := cur.context } true

/-- `AddHMIState(layer)`: install a Temporary layer; at most one layer of
each Temporary StateID exists simultaneously (spec §3 StateStack
invariants), so a second push of the same id is absorbed. -/
def App.pushTemp (sid : StateID) (a : App) : App :=
  if sid ∈ a.temps then a else { a with temps := sid :: a.temps }

/-- `RemoveHMIState(state_id)`: drop the Temporary layer with that id. -/
def App.popTemp (sid : StateID) (a : App) : App :=
  { a with temps := a.temps.filter (fun t => t ≠ sid) }

/-- Modelled from the spec: broadcast push of a Temporary layer onto every
application's stack on a system-event onset (spec §4.5, `TempStateStarted`
of the absent `StateControllerImpl`), recomputing Current and emitting
change notifications per touched application (spec §2 data flow). -/
def pushTempAll (st : SCState) (sid : StateID) : SCState × List Notif :=
  ({ st with apps := st.apps.map (App.pushTemp sid) },
   st.apps.flatMap (fun a =>
     onStateChanged a.app_id (a.current st.attenuated)
       ((App.pushTemp sid a).current st.attenuated)))

/-- Modelled from the spec: consume one application's Postponed layer after
a Temporary layer was popped (spec §4.5, §4.6): read it, discard it, then
replay it as `SetRegularState` using the same activation-request logic
(the replay requests activation, which only takes effect on a FULL
state). -/
def consumePostponed (st : SCState) (appId : Nat) : SCState × List Notif :=
  match st.lookup appId with
  | none => (st, [])
  | some a =>
    match a.postponed with
    | none => (st, [])
    | some s =>
        setRegularState
          (st.updateApp appId (fun x => { x with postponed := none }))
          appId s true

/-- Modelled from the spec: broadcast pop of a Temporary layer on a
system-event offset, followed by Postponed consumption for every
application in Registry order (spec §4.5: "then consume Postponed if any";
§5: a Temporary pop precedes any Postponed replay). -/
def popTempAll (st : SCState) (sid : StateID) : SCState × List Notif :=
  let popNotifs := st.apps.flatMap (fun a =>
    onStateChanged a.app_id (a.current st.attenuated)
      ((App.popTemp sid a).current st.attenuated))
  let st1 := { st with apps := st.apps.map (App.popTemp sid) }
  let consumed := (st.apps.map (fun a => a.app_id)).foldl
    (fun acc i =>
      let r := consumePostponed acc.1 i
      (r.1, acc.2 ++ r.2))
    (st1, ([] : List Notif))
  (consumed.1, popNotifs ++ consumed.2)

/-- The streaming layer id an application receives: NAVI_STREAMING for a
navi application and VIDEO_STREAMING otherwise (test state-id lists
`valid_state_ids_` / `navi_valid_state_ids_`). -/
def streamingId (c : Caps) : StateID :=
  if c.is_navi then StateID.NAVI_STREAMING else StateID.VIDEO_STREAMING

/-- Push a Temporary layer on the one application with this id. -/
def pushAt (sid : StateID) (i : Nat) (x : App) : App :=
  if x.app_id = i then App.pushTemp sid x else x

/-- Pop a Temporary layer from the one application with this id. -/
def popAt (sid : StateID) (i : Nat) (x : App) : App :=
  if x.app_id = i then App.popTemp sid x else x

/-- Modelled from the spec: `OnVideoStreamingStarted(app)` — push the
streaming Temporary layer on that one application (spec §4.5). -/
def videoStreamingStarted (st : SCState) (appId : Nat) :
    SCState × List Notif :=
  match st.lookup appId with
  | none => (st, [])
  | some a =>
      ({ st with apps := st.apps.map (pushAt (streamingId a.caps) appId) },
       onStateChanged a.app_id (a.current st.attenuated)
         ((App.pushTemp (streamingId a.caps) a).current st.attenuated))

/-- Modelled from the spec: `OnVideoStreamingStopped(app)` — pop that
application's streaming layer, then consume its Postponed layer
(spec §4.5). -/
def videoStreamingStopped (st : SCState) (appId : Nat) :
    SCState × List Notif :=
  match st.lookup appId with
  | none => (st, [])
  | some a =>
      let popNotifs :=
        onStateChanged a.app_id (a.current st.attenuated)
          ((App.popTemp (streamingId a.caps) a).current st.attenuated)
      let st1 := { st with apps := st.apps.map (popAt (streamingId a.caps) appId) }
      let r := consumePostponed st1 appId
      (r.1, popNotifs ++ r.2)

/-- Modelled from the spec: `OnEvent(ActivateAppResponse(correlation_id,
result))` (spec §4.5, §7): an unknown correlation id is dropped silently;
any non-SUCCESS result discards the pending record and emits nothing; on
SUCCESS the deferred `SetRegularState` is applied as if non-activating,
and a pending record whose application is no longer registered is
discarded silently. -/
def activateAppResponse (st : SCState) (corr : Nat) (success : Bool) :
    SCState × List Notif :=
  match st.pending.find? (fun p => p.1 = corr) with
  | none => (st, [])
  | some p =>
      let st1 := { st with pending := st.pending.filter (fun q => q.1 ≠ corr) }
      if success then
        match st1.lookup p.2.1 with
        | none => (st1, [])
        | some _ => setRegularState st1 p.2.1 p.2.2 false
      else
        (st1, [])

/-- Modelled from the spec: `DeactivateApp` — the demotion applied on
`OnAppDeactivated` when the application is above BACKGROUND (spec §4.5:
demote, an Audio application retaining AUDIBLE at LIMITED; test
`OnEventOnAppDeactivatedAudioApplication` /
`OnEventOnAppDeactivatedNotAudioApplication`), applied through the regular
transition machinery without an activation request. -/
def deactivateApp (st : SCState) (a : App) : SCState × List Notif :=
  if a.caps.isAudio then
    setRegularState st a.app_id (demoteLimitedAudible a.regular) false
  else
    setRegularState st a.app_id (demoteBackground a.regular) false

/-- Modelled from the spec: `OnEvent(OnAppDeactivated)` (spec §4.5): an
unregistered application is ignored; an application whose current HMI
level is already BACKGROUND or lower is left untouched without reading its
Regular state (test `OnEventOnAppDeactivatedIncorrectHmiLevel`,
`OnEventOnAppDeactivatedIncorrectApp`); otherwise the application is
demoted. -/
def onAppDeactivated (st : SCState) (appId : Nat) : SCState × List Notif :=
  match st.lookup appId with
  | none => (st, [])
  | some a =>
      let lvl := (a.current st.attenuated).level
      if lvl = HMILevel.FULL ∨ lvl = HMILevel.LIMITED then
        deactivateApp st a
      else
        (st, [])

/-- Modelled from the spec: `OnEvent(OnAppActivated)` (spec §4.5): an
unregistered application is ignored; otherwise a FULL Regular transition
is synthesized through the level-only overload. -/
def onAppActivatedEvent (st : SCState) (appId : Nat) : SCState × List Notif :=
  match st.lookup appId with
  | none => (st, [])
  | some _ => setRegularStateWithLevel st appId HMILevel.FULL

/-- The external events the controller's single sink dispatches on
(spec §4.5 table). -/
inductive Event where
  | vrStarted
  | vrStopped
  | ttsStarted
  | ttsStopped
  | eventChanged (kind : StateID) (active : Bool)
  | videoStreamingStartedEvent (appId : Nat)
  | videoStreamingStoppedEvent (appId : Nat)
  | activateAppResponseEvent (correlation_id : Nat) (success : Bool)
  | onAppActivated (appId : Nat)
  | onAppDeactivatedEvent (appId : Nat)
  deriving DecidableEq, Repr

/-- Modelled from the spec: the single event sink `OnEvent(e)`
(spec §4.5 table). -/
def onEvent (st : SCState) (e : Event) : SCState × List Notif :=
  match e with
  | Event.vrStarted => pushTempAll st StateID.VR_SESSION
  | Event.vrStopped => popTempAll st StateID.VR_SESSION
  | Event.ttsStarted => pushTempAll st StateID.TTS_SESSION
  | Event.ttsStopped => popTempAll st StateID.TTS_SESSION
  | Event.eventChanged kind active =>
      if active then pushTempAll st kind else popTempAll st kind
  | Event.videoStreamingStartedEvent appId => videoStreamingStarted st appId
  | Event.videoStreamingStoppedEvent appId => videoStreamingStopped st appId
  | Event.activateAppResponseEvent corr success =>
      activateAppResponse st corr success
  | Event.onAppActivated appId => onAppActivatedEvent st appId
  | Event.onAppDeactivatedEvent appId => onAppDeactivated st appId

/-! ### Concrete fixtures used by witnesses and counterexamples -/

/-- A state with the four named fields and the fixed video/context the test
helpers use (`CreateHmiState` with `NOT_STREAMABLE`/`SYSCTXT_MAIN`). -/
def mkState (l : HMILevel) (au : AudioStreamingState) : HmiState :=
  { level := l, audio := au, video := VideoStreamingState.NOT_STREAMABLE,
    context := SystemContext.MAIN }

/-- `FullState()` of the test file. -/
def fullState : HmiState := mkState HMILevel.FULL AudioStreamingState.NOT_AUDIBLE

/-- `FullAudibleState()` of the test file. -/
def fullAudibleState : HmiState := mkState HMILevel.FULL AudioStreamingState.AUDIBLE

/-- `LimitedAudibleState()` of the test file. -/
def limitedAudibleState : HmiState :=
  mkState HMILevel.LIMITED AudioStreamingState.AUDIBLE

/-- `BackgroundState()` of the test file. -/
def backgroundState : HmiState :=
  mkState HMILevel.BACKGROUND AudioStreamingState.NOT_AUDIBLE

/-- `NoneState()` of the test file. -/
def noneState : HmiState := mkState HMILevel.NONE AudioStreamingState.NOT_AUDIBLE

/-- A registered application with the given id, capability flags
(media, navi, projection, voice-comm as in `ConfigureApp`) and Regular
state, no Temporary layers, nothing postponed, not resuming. -/
def mkApp (i : Nat) (m n p v : Bool) (s : HmiState) : App :=
  { app_id := i,
    caps := { is_media := m, is_navi := n, is_projection := p,
              is_voice_comm := v },
    regular := s, temps := [], postponed := none, is_resuming := false }

/-- A controller state over the given Registry with no pending activations
and attenuation unsupported. -/
def mkSC (apps : List App) : SCState :=
  { apps := apps, pending := [], nextCorrelation := 314, attenuated := false }

/-! ### Claim C8 — `OnStateChanged` and `ResetDataInNone` -/

/-- C8 (amended): for every application and every pair of composed
states, `OnStateChanged` fires the application's `ResetDataInNone` side
effect exactly once when the two states differ and the new state's level
is NONE — whatever the old level, including a NONE-to-NONE change of some
other field — and never otherwise: not when the states are equal and not
when the new level is non-NONE. -/
theorem onStateChanged_resetDataInNone_count (appId : Nat)
    (oldS newS : HmiState) :
    (onStateChanged appId oldS newS).count (Notif.resetDataInNone appId) =
      if oldS ≠ newS ∧ newS.level = HMILevel.NONE then 1
      else 0 := by
  unfold onStateChanged
  split_ifs with h1 h2 <;>
    simp_all [List.count_append, List.count_cons, List.count_nil]

/-- C8 counterexample: a status change that only touches the system
context while the level stays NONE on both sides still fires
`ResetDataInNone` (the test `OnStateChangedWithDifferentStates` expects
it on every differing pair whose new level is NONE, with no exemption
for an old level that is already NONE), contradicting the claim's
"and the old one's is not [NONE]". -/
theorem onStateChanged_none_to_none_counterexample :
    noneState ≠ { noneState with context := SystemContext.VRSESSION } ∧
    noneState.level = HMILevel.NONE ∧
    (onStateChanged 7 noneState
        { noneState with context := SystemContext.VRSESSION }).count
      (Notif.resetDataInNone 7) = 1 := by
  decide

/-! ### Claim C6 — INVALID candidate states are silent no-ops -/

/-- C6: for every application and every candidate Regular state with an
INVALID level, audio state or system context, `SetRegularState` is a
silent no-op: the controller state (in particular every application's
Regular state) is unchanged and no notification of any kind is emitted,
whatever the activation flag. -/
theorem setRegularState_invalid_noop (st : SCState) (appId : Nat)
    (r : HmiState) (b : Bool)
    (h : r.level = HMILevel.INVALID ∨ r.audio = AudioStreamingState.INVALID ∨
         r.context = SystemContext.INVALID) :
    setRegularState st appId r b = (st, []) := by
  have hv : r.isValid = false := by
    rcases h with h | h | h <;> simp [HmiState.isValid, h]
  unfold setRegularState
  cases hl : st.lookup appId with
  | none => rfl
  | some a => simp [hv]

/-- Witness for C6: a concrete INVALID-level request against a registered
media application is dropped with no effect. -/
theorem setRegularState_invalid_noop_witness :
    (mkState HMILevel.INVALID AudioStreamingState.NOT_AUDIBLE).level =
        HMILevel.INVALID ∧
    setRegularState (mkSC [mkApp 1 true false false false backgroundState]) 1
        (mkState HMILevel.INVALID AudioStreamingState.NOT_AUDIBLE) false =
      (mkSC [mkApp 1 true false false false backgroundState], []) :=
  ⟨rfl,
   setRegularState_invalid_noop
     (mkSC [mkApp 1 true false false false backgroundState]) 1
     (mkState HMILevel.INVALID AudioStreamingState.NOT_AUDIBLE) false
     (Or.inl rfl)⟩

/-! ### Claim C3 — postponement while a Temporary layer is active -/

/-- C3: for every registered application with at least one active Temporary
layer that is in a resuming phase, `SetRegularState(app, new_regular,
false)` with a valid candidate stores the candidate as the application's
Postponed state and does nothing else: no application's Regular state
changes and no notification is emitted. -/
theorem setRegularState_postpones_during_temporary (st : SCState)
    (appId : Nat) (r : HmiState) (a : App)
    (hl : st.lookup appId = some a) (hv : r.isValid = true)
    (ht : a.temps ≠ []) (hres : a.is_resuming = true) :
    setRegularState st appId r false =
      (st.updateApp appId (fun x => { x with postponed := some r }), []) := by
  unfold setRegularState
  rw [hl]
  simp [hv, ht, hres]

/-- A resuming media application with the VR Temporary layer active. -/
def resumingMediaApp : App :=
  { mkApp 7 true false false false backgroundState with
    temps := [StateID.VR_SESSION], is_resuming := true }

/-- Witness for C3: a media application resuming while the VR layer is
active has a LIMITED+AUDIBLE request parked as Postponed. -/
theorem setRegularState_postpones_during_temporary_witness :
    (mkSC [resumingMediaApp]).lookup 7 = some resumingMediaApp ∧
    limitedAudibleState.isValid = true ∧
    setRegularState (mkSC [resumingMediaApp]) 7 limitedAudibleState false =
      ((mkSC [resumingMediaApp]).updateApp 7
          (fun x => { x with postponed := some limitedAudibleState }), []) :=
  ⟨by decide, by decide,
   setRegularState_postpones_during_temporary (mkSC [resumingMediaApp]) 7
     limitedAudibleState resumingMediaApp (by decide) (by decide) (by decide)
     (by decide)⟩

/-! ### Claim C4 — failed or stale activation responses -/

/-- C4: an `ActivateAppResponse` carrying any non-SUCCESS result, or an
unknown correlation id, or a correlation id whose recorded application is
no longer registered, leaves every application (in particular every
Regular state) unchanged, emits no notification, and leaves no pending
record under that correlation id. -/
theorem activateAppResponse_failure_noop (st : SCState) (corr : Nat)
    (success : Bool)
    (h : success = false ∨ st.pending.find? (fun p => p.1 = corr) = none ∨
         ∃ p, st.pending.find? (fun p => p.1 = corr) = some p ∧
           st.lookup p.2.1 = none) :
    (activateAppResponse st corr success).2 = [] ∧
    (activateAppResponse st corr success).1.apps = st.apps ∧
    ∀ q ∈ (activateAppResponse st corr success).1.pending, q.1 ≠ corr := by
  unfold activateAppResponse
  cases hf : st.pending.find? (fun p => p.1 = corr) with
  | none =>
      refine ⟨rfl, rfl, fun q hq => ?_⟩
      have := List.find?_eq_none.mp hf q hq
      simpa using this
  | some p =>
      have hfilter : ∀ q ∈ st.pending.filter (fun q => q.1 ≠ corr),
          q.1 ≠ corr := by
        intro q hq
        have := (List.mem_filter.mp hq).2
        simpa using this
      cases success with
      | false => exact ⟨rfl, rfl, hfilter⟩
      | true =>
          rcases h with h | h | ⟨p', hp', hlook⟩
          · cases h
          · rw [hf] at h; cases h
          · rw [hf] at hp'
            cases hp'
            have hl2 : SCState.lookup
                { st with pending := st.pending.filter (fun q => q.1 ≠ corr) }
                p.2.1 = none := hlook
            dsimp only
            rw [hl2]
            exact ⟨rfl, rfl, hfilter⟩

/-- A controller state with one registered application and one pending
activation under correlation id 314. -/
def pendingSC : SCState :=
  { mkSC [mkApp 1 false false false false backgroundState] with
    pending := [(314, 1, fullState)] }

/-- Witness for C4: a REJECTED (non-SUCCESS) response to the pending
activation discards it silently. -/
theorem activateAppResponse_failure_noop_witness :
    (false = false ∨ pendingSC.pending.find? (fun p => p.1 = 314) = none ∨
      ∃ p, pendingSC.pending.find? (fun p => p.1 = 314) = some p ∧
        pendingSC.lookup p.2.1 = none) ∧
    ((activateAppResponse pendingSC 314 false).2 = [] ∧
     (activateAppResponse pendingSC 314 false).1.apps = pendingSC.apps ∧
     ∀ q ∈ (activateAppResponse pendingSC 314 false).1.pending, q.1 ≠ 314) :=
  ⟨Or.inl rfl, activateAppResponse_failure_noop pendingSC 314 false
    (Or.inl rfl)⟩

/-! ### Claim C10 — `OnAppDeactivated` below FULL/LIMITED -/

/-- C10: an `OnAppDeactivated` event naming an application that is not in
the Registry, or whose current HMI level is already BACKGROUND or lower,
changes nothing: every application's Regular state is left as it was and
no notification is emitted. -/
theorem onAppDeactivated_low_level_noop (st : SCState) (appId : Nat)
    (h : st.lookup appId = none ∨
         ∃ a, st.lookup appId = some a ∧
           ((a.current st.attenuated).level = HMILevel.BACKGROUND ∨
            (a.current st.attenuated).level = HMILevel.NONE)) :
    onAppDeactivated st appId = (st, []) := by
  unfold onAppDeactivated
  rcases h with h | ⟨a, ha, hlvl⟩
  · rw [h]
  · rw [ha]
    have hns : ¬ ((a.current st.attenuated).level = HMILevel.FULL ∨
        (a.current st.attenuated).level = HMILevel.LIMITED) := by
      rcases hlvl with h' | h' <;> simp [h']
    simp [hns]

/-- Witness for C10: deactivating a registered application whose current
level is BACKGROUND is a no-op. -/
theorem onAppDeactivated_low_level_noop_witness :
    (∃ a, (mkSC [mkApp 1 true false false false backgroundState]).lookup 1 =
        some a ∧
      ((a.current (mkSC [mkApp 1 true false false false
          backgroundState]).attenuated).level = HMILevel.BACKGROUND ∨
       (a.current (mkSC [mkApp 1 true false false false
          backgroundState]).attenuated).level = HMILevel.NONE)) ∧
    onAppDeactivated (mkSC [mkApp 1 true false false false backgroundState])
        1 = (mkSC [mkApp 1 true false false false backgroundState], []) :=
  ⟨⟨mkApp 1 true false false false backgroundState, by decide, by decide⟩,
   onAppDeactivated_low_level_noop
     (mkSC [mkApp 1 true false false false backgroundState]) 1
     (Or.inr ⟨mkApp 1 true false false false backgroundState, by decide,
       by decide⟩)⟩

/-! ### Claim C5 — the PHONE_CALL projection -/

/-- C5 counterexample: while the PHONE_CALL Temporary layer is active, a
Media application whose underlying Regular state is the valid state
`(NONE, NOT_AUDIBLE, NOT_STREAMABLE, MAIN)` composes to Current level
NONE, not BACKGROUND as the claim demands for every valid underlying
state (the test table `PreparePhoneCallHMIStateResults` keeps all NONE
and BACKGROUND entries unchanged for media applications). -/
theorem phone_call_media_none_counterexample :
    (mkApp 1 true false false false noneState).caps.is_media = true ∧
    noneState.isValid = true ∧
    (App.current false { mkApp 1 true false false false noneState with
        temps := [StateID.PHONE_CALL] }).level = HMILevel.NONE ∧
    (App.current false { mkApp 1 true false false false noneState with
        temps := [StateID.PHONE_CALL] }).level ≠ HMILevel.BACKGROUND := by
  decide

/-- C5 (amended): while exactly the PHONE_CALL Temporary layer is active,
the composed Current of a non-Media non-Navi application equals the state
below the layer unchanged; a Navi application's Current has audio
NOT_AUDIBLE and its level lowered from FULL to LIMITED (levels at or below
LIMITED unchanged); a Media (non-Navi) application's Current has audio
NOT_AUDIBLE and its level lowered from FULL or LIMITED to BACKGROUND
(levels at or below BACKGROUND unchanged) — for every underlying Regular
state of that application. -/
theorem current_under_phone_call (att : Bool) (i : Nat) (c : Caps)
    (s : HmiState) (po : Option HmiState) (b : Bool) :
    App.current att
        { app_id := i, caps := c, regular := s,
          temps := [StateID.PHONE_CALL], postponed := po,
          is_resuming := b } =
      if c.is_navi then
        { s with level := if s.level = HMILevel.FULL then HMILevel.LIMITED
                          else s.level,
                 audio := AudioStreamingState.NOT_AUDIBLE }
      else if c.is_media then
        { s with level := if s.level = HMILevel.FULL ||
                              s.level = HMILevel.LIMITED then
                            HMILevel.BACKGROUND
                          else s.level,
                 audio := AudioStreamingState.NOT_AUDIBLE }
      else s := by
  simp [App.current, canonicalOrder, applyProjection]

/-! ### Claim C9 — the level-only `SetRegularState` overload -/

/-- The composed Current equals the Regular layer when no Temporary layer
is active. -/
theorem current_of_no_temps (att : Bool) (a : App) (h : a.temps = []) :
    a.current att = a.regular := by
  simp [App.current, canonicalOrder, h]

/-- A media application in FULL+AUDIBLE with the VR Temporary layer
active. -/
def vrMediaApp : App :=
  { mkApp 1 true false false false fullAudibleState with
    temps := [StateID.VR_SESSION] }

/-- C9 counterexample: with the VR layer active over a media application
in FULL+AUDIBLE the Current's audio is NOT_AUDIBLE (the VR table
`SetVRStateForMediaApplication` pins `(FULL, AUDIBLE) ↦
(FULL, NOT_AUDIBLE)`) while the Regular keeps AUDIBLE; the level-only
overload — whose reads the test `SetRegularStateWithNewHmiLvl` pins to
`RegularHmiState()` — therefore installs a LIMITED Regular with audio
AUDIBLE, while composing from the prior *Current* state as the claim
words it would install NOT_AUDIBLE; the two disagree. -/
theorem setRegularStateWithLevel_counterexample :
    ((setRegularStateWithLevel (mkSC [vrMediaApp]) 1
        HMILevel.LIMITED).1.lookup 1).map (fun a => a.regular.audio) =
      some AudioStreamingState.AUDIBLE ∧
    ((setRegularStateWithLevelSpec (mkSC [vrMediaApp]) 1
        HMILevel.LIMITED).1.lookup 1).map (fun a => a.regular.audio) =
      some AudioStreamingState.NOT_AUDIBLE ∧
    setRegularStateWithLevel (mkSC [vrMediaApp]) 1 HMILevel.LIMITED ≠
      setRegularStateWithLevelSpec (mkSC [vrMediaApp]) 1 HMILevel.LIMITED := by
  decide

/-- C9 (amended): the level-only overload composes the candidate from the
given level and the prior *Regular* state's audio, video and system
context, and hands it to the full `SetRegularState` with activation
requested (so a FULL grant goes through the ActivateApp request path and
lower levels through the ordinary postponement and conflict-resolution
rules); when the application has no active Temporary layer this coincides
with composing from the prior Current state, as the spec words it. -/
theorem setRegularStateWithLevel_spec (st : SCState) (appId : Nat)
    (lvl : HMILevel) (a : App) (hl : st.lookup appId = some a) :
    setRegularStateWithLevel st appId lvl =
      setRegularState st appId
        { level := lvl, audio := a.regular.audio, video := a.regular.video,
          context := a.regular.context } true ∧
    (a.temps = [] →
      setRegularStateWithLevel st appId lvl =
        setRegularStateWithLevelSpec st appId lvl) := by
  constructor
  · unfold setRegularStateWithLevel
    rw [hl]
  · intro ht
    unfold setRegularStateWithLevel setRegularStateWithLevelSpec
    rw [hl]
    dsimp only
    rw [current_of_no_temps st.attenuated a ht]

/-- Witness for C9: on a media application at LIMITED+AUDIBLE with no
Temporary layer, the overload at level BACKGROUND equals the full
operation on the Regular-composed candidate and agrees with the
spec-worded Current-composed variant. -/
theorem setRegularStateWithLevel_spec_witness :
    (mkSC [mkApp 2 true false false false limitedAudibleState]).lookup 2 =
        some (mkApp 2 true false false false limitedAudibleState) ∧
    (setRegularStateWithLevel
        (mkSC [mkApp 2 true false false false limitedAudibleState]) 2
        HMILevel.BACKGROUND =
      setRegularState (mkSC [mkApp 2 true false false false
          limitedAudibleState]) 2
        { level := HMILevel.BACKGROUND,
          audio := (mkApp 2 true false false false
            limitedAudibleState).regular.audio,
          video := (mkApp 2 true false false false
            limitedAudibleState).regular.video,
          context := (mkApp 2 true false false false
            limitedAudibleState).regular.context } true ∧
      ((mkApp 2 true false false false limitedAudibleState).temps = [] →
        setRegularStateWithLevel
            (mkSC [mkApp 2 true false false false limitedAudibleState]) 2
            HMILevel.BACKGROUND =
          setRegularStateWithLevelSpec
            (mkSC [mkApp 2 true false false false limitedAudibleState]) 2
            HMILevel.BACKGROUND)) :=
  ⟨by decide,
   setRegularStateWithLevel_spec
     (mkSC [mkApp 2 true false false false limitedAudibleState]) 2
     HMILevel.BACKGROUND (mkApp 2 true false false false limitedAudibleState)
     (by decide)⟩

/-! ### Claim C7 — push/pop symmetry of Temporary layers -/

/-- Popping a layer that was just pushed on a stack not holding it restores
the application record exactly. -/
theorem popTemp_pushTemp (sid : StateID) (b : App) (h : sid ∉ b.temps) :
    App.popTemp sid (App.pushTemp sid b) = b := by
  unfold App.pushTemp App.popTemp
  rw [if_neg h]
  have hfilter : b.temps.filter (fun t => !decide (t = sid)) = b.temps := by
    apply List.filter_eq_self.mpr
    intro t ht
    simp only [Bool.not_eq_true', decide_eq_false_iff_not]
    intro e
    exact h (e ▸ ht)
  simp [hfilter]

/-- Pushing a layer on a stack not holding it yields exactly one layer with
that StateID. -/
theorem pushTemp_count (sid : StateID) (b : App) (h : sid ∉ b.temps) :
    (App.pushTemp sid b).temps.count sid = 1 := by
  unfold App.pushTemp
  rw [if_neg h]
  simp [List.count_cons_self, List.count_eq_zero.mpr h]

/-- Consuming the Postponed layer of an application that has none is the
identity. -/
theorem consumePostponed_of_none (st : SCState) (i : Nat)
    (h : ∀ b ∈ st.apps, b.postponed = none) :
    consumePostponed st i = (st, []) := by
  unfold consumePostponed
  cases hl : st.lookup i with
  | none => rfl
  | some a =>
      have ha : a ∈ st.apps := List.mem_of_find?_eq_some hl
      dsimp only
      rw [h a ha]

/-- The Postponed-consumption pass over any id list is the identity when no
application has a Postponed layer. -/
theorem foldl_consumePostponed_of_none (ids : List Nat) (st : SCState)
    (ns : List Notif) (h : ∀ b ∈ st.apps, b.postponed = none) :
    ids.foldl
      (fun acc i =>
        let r := consumePostponed acc.1 i
        (r.1, acc.2 ++ r.2))
      (st, ns) = (st, ns) := by
  induction ids generalizing ns with
  | nil => rfl
  | cons i t ih =>
      simp only [List.foldl_cons, consumePostponed_of_none st i h,
        List.append_nil]
      exact ih ns

/-- The Temporary-layer kinds claim C7 ranges over, with their onset and
offset events: VR and TTS sessions, phone call, safety mode (emergency),
and per-application video/navi streaming. -/
inductive TempKind where
  | vr
  | tts
  | phoneCall
  | safetyMode
  | streaming (appId : Nat)
  deriving DecidableEq, Repr

/-- The event whose arrival pushes the layer (spec §4.5 table). -/
def TempKind.onset : TempKind → Event
  | TempKind.vr => Event.vrStarted
  | TempKind.tts => Event.ttsStarted
  | TempKind.phoneCall => Event.eventChanged StateID.PHONE_CALL true
  | TempKind.safetyMode => Event.eventChanged StateID.SAFETY_MODE true
  | TempKind.streaming i => Event.videoStreamingStartedEvent i

/-- The matching event whose arrival pops the layer (spec §4.5 table). -/
def TempKind.offset : TempKind → Event
  | TempKind.vr => Event.vrStopped
  | TempKind.tts => Event.ttsStopped
  | TempKind.phoneCall => Event.eventChanged StateID.PHONE_CALL false
  | TempKind.safetyMode => Event.eventChanged StateID.SAFETY_MODE false
  | TempKind.streaming i => Event.videoStreamingStoppedEvent i

/-- Whether the kind's events touch this application: the broadcast kinds
touch every application, streaming only its named one. -/
def TempKind.affects : TempKind → App → Bool
  | TempKind.streaming i, b => b.app_id = i
  | _, _ => true

/-- The StateID the kind pushes on this application (streaming uses
NAVI_STREAMING or VIDEO_STREAMING depending on the application). -/
def TempKind.sidFor : TempKind → App → StateID
  | TempKind.vr, _ => StateID.VR_SESSION
  | TempKind.tts, _ => StateID.TTS_SESSION
  | TempKind.phoneCall, _ => StateID.PHONE_CALL
  | TempKind.safetyMode, _ => StateID.SAFETY_MODE
  | TempKind.streaming _, b => streamingId b.caps

@[simp] theorem pushTemp_app_id (sid : StateID) (b : App) :
    (App.pushTemp sid b).app_id = b.app_id := by
  unfold App.pushTemp; split <;> rfl

@[simp] theorem pushTemp_caps (sid : StateID) (b : App) :
    (App.pushTemp sid b).caps = b.caps := by
  unfold App.pushTemp; split <;> rfl

@[simp] theorem pushTemp_postponed (sid : StateID) (b : App) :
    (App.pushTemp sid b).postponed = b.postponed := by
  unfold App.pushTemp; split <;> rfl

@[simp] theorem popTemp_app_id (sid : StateID) (b : App) :
    (App.popTemp sid b).app_id = b.app_id := rfl

@[simp] theorem popTemp_postponed (sid : StateID) (b : App) :
    (App.popTemp sid b).postponed = b.postponed := rfl

/-- Popping a Temporary layer after the matching broadcast push restores
the controller state exactly (all Regular layers, Postponed slots and the
pending map included), provided no application already held the layer and
no Postponed state was parked. -/
theorem push_pop_broadcast (st : SCState) (sid : StateID)
    (hpost : ∀ b ∈ st.apps, b.postponed = none)
    (hfresh : ∀ b ∈ st.apps, sid ∉ b.temps) :
    (popTempAll (pushTempAll st sid).1 sid).1 = st := by
  have h1 : (pushTempAll st sid).1 =
      { st with apps := st.apps.map (App.pushTemp sid) } := rfl
  have hpost1 : ∀ b ∈ st.apps.map (App.pushTemp sid), b.postponed = none := by
    intro b hb
    obtain ⟨c, hc, rfl⟩ := List.mem_map.mp hb
    rw [pushTemp_postponed]
    exact hpost c hc
  have hrestore : (st.apps.map (App.pushTemp sid)).map (App.popTemp sid) =
      st.apps := by
    rw [List.map_map]
    have hpt : ∀ b ∈ st.apps, (App.popTemp sid ∘ App.pushTemp sid) b =
        id b := by
      intro b hb
      exact popTemp_pushTemp sid b (hfresh b hb)
    rw [List.map_congr_left hpt, List.map_id]
  rw [h1]
  unfold popTempAll
  dsimp only
  rw [hrestore]
  have hfold := foldl_consumePostponed_of_none
    (((st.apps.map (App.pushTemp sid)).map (fun a => a.app_id)))
    { st with apps := st.apps } [] (by simpa using hpost)
  simp only [hfold]

/-- Stopping a per-application streaming layer right after starting it
restores the controller state exactly, provided the application is
registered under a unique id, did not already hold its streaming layer,
and no application has a Postponed state parked. -/
theorem videoStreaming_start_stop (st : SCState) (i : Nat) (a : App)
    (ha : st.lookup i = some a)
    (hids : (st.apps.map App.app_id).Nodup)
    (hpost : ∀ b ∈ st.apps, b.postponed = none)
    (hfresh : streamingId a.caps ∉ a.temps) :
    (videoStreamingStopped (videoStreamingStarted st i).1 i).1 = st := by
  have hmem : a ∈ st.apps := List.mem_of_find?_eq_some ha
  have hai : a.app_id = i := by simpa using List.find?_some ha
  have huniq : ∀ b ∈ st.apps, b.app_id = i → b = a := by
    intro b hb hbi
    exact List.inj_on_of_nodup_map hids hb hmem (by rw [hbi, hai])
  have h1 : (videoStreamingStarted st i).1 =
      { st with apps := st.apps.map (pushAt (streamingId a.caps) i) } := by
    unfold videoStreamingStarted
    rw [ha]
  have hkey : (fun x => decide (x.app_id = i)) ∘ pushAt (streamingId a.caps) i =
      fun x => decide (x.app_id = i) := by
    funext x
    simp only [Function.comp_apply, pushAt]
    split <;> simp_all
  have h2 : SCState.lookup
      { st with apps := st.apps.map (pushAt (streamingId a.caps) i) } i =
      some (App.pushTemp (streamingId a.caps) a) := by
    show (st.apps.map (pushAt (streamingId a.caps) i)).find?
        (fun x => x.app_id = i) = _
    rw [List.find?_map, hkey]
    show (st.apps.find? (fun x => x.app_id = i)).map _ = _
    rw [show st.apps.find? (fun x => x.app_id = i) = some a from ha]
    simp [pushAt, hai]
  have hrestore : (st.apps.map (pushAt (streamingId a.caps) i)).map
      (popAt (streamingId a.caps) i) = st.apps := by
    rw [List.map_map]
    have hpt : ∀ b ∈ st.apps,
        (popAt (streamingId a.caps) i ∘ pushAt (streamingId a.caps) i) b =
          id b := by
      intro b hb
      simp only [Function.comp_apply, pushAt, popAt, id_eq]
      by_cases hbi : b.app_id = i
      · rw [if_pos hbi, if_pos (by simpa using hbi)]
        rw [huniq b hb hbi]
        exact popTemp_pushTemp (streamingId a.caps) a hfresh
      · rw [if_neg hbi, if_neg hbi]
    rw [List.map_congr_left hpt, List.map_id]
  rw [h1]
  unfold videoStreamingStopped
  rw [h2]
  dsimp only
  have hcaps : (App.pushTemp (streamingId a.caps) a).caps = a.caps :=
    pushTemp_caps _ _
  rw [hcaps, hrestore]
  have hcons := consumePostponed_of_none { st with apps := st.apps } i
    (by simpa using hpost)
  simp only [hcons]

/-- C7: for every Temporary layer kind (VR, TTS, phone call, safety mode,
video/navi streaming) and every registry with unique ids in which no
application holds that layer or a Postponed state, the onset event adds
exactly one layer with the kind's StateID to each touched application,
and the matching offset event removes exactly that layer and restores the
whole controller state — in particular every application's composed
Current state — to its value before the push. -/
theorem temp_layer_push_pop_symmetry (st : SCState) (k : TempKind)
    (hids : (st.apps.map App.app_id).Nodup)
    (hpost : ∀ b ∈ st.apps, b.postponed = none)
    (hfresh : ∀ b ∈ st.apps, k.sidFor b ∉ b.temps)
    (hreg : ∀ i, k = TempKind.streaming i → ∃ a ∈ st.apps, a.app_id = i) :
    ((onEvent st k.onset).1.apps =
       st.apps.map (fun b =>
         if k.affects b then App.pushTemp (k.sidFor b) b else b)) ∧
    (∀ b ∈ st.apps, k.affects b →
       (App.pushTemp (k.sidFor b) b).temps.count (k.sidFor b) = 1) ∧
    (onEvent (onEvent st k.onset).1 k.offset).1 = st ∧
    (∀ b ∈ st.apps, ∃ b' ∈ (onEvent (onEvent st k.onset).1 k.offset).1.apps,
       b'.app_id = b.app_id ∧
       b'.current st.attenuated = b.current st.attenuated) := by
  have hcount : ∀ b ∈ st.apps, k.affects b →
      (App.pushTemp (k.sidFor b) b).temps.count (k.sidFor b) = 1 := by
    intro b hb _
    exact pushTemp_count _ b (hfresh b hb)
  have hsame : (onEvent (onEvent st k.onset).1 k.offset).1 = st →
      ∀ b ∈ st.apps, ∃ b' ∈ (onEvent (onEvent st k.onset).1 k.offset).1.apps,
        b'.app_id = b.app_id ∧
        b'.current st.attenuated = b.current st.attenuated := by
    intro h b hb
    exact ⟨b, by rw [h]; exact hb, rfl, rfl⟩
  cases k with
  | vr =>
      have h3 := push_pop_broadcast st StateID.VR_SESSION hpost hfresh
      exact ⟨by simp [onEvent, pushTempAll, TempKind.onset, TempKind.affects,
        TempKind.sidFor], hcount, h3, hsame h3⟩
  | tts =>
      have h3 := push_pop_broadcast st StateID.TTS_SESSION hpost hfresh
      exact ⟨by simp [onEvent, pushTempAll, TempKind.onset, TempKind.affects,
        TempKind.sidFor], hcount, h3, hsame h3⟩
  | phoneCall =>
      have h3 := push_pop_broadcast st StateID.PHONE_CALL hpost hfresh
      exact ⟨by simp [onEvent, pushTempAll, TempKind.onset, TempKind.affects,
        TempKind.sidFor], hcount, h3, hsame h3⟩
  | safetyMode =>
      have h3 := push_pop_broadcast st StateID.SAFETY_MODE hpost hfresh
      exact ⟨by simp [onEvent, pushTempAll, TempKind.onset, TempKind.affects,
        TempKind.sidFor], hcount, h3, hsame h3⟩
  | streaming i =>
      obtain ⟨a0, ha0, hai0⟩ := hreg i rfl
      have hsome : st.lookup i ≠ none := by
        intro h
        have := List.find?_eq_none.mp h a0 ha0
        simp [hai0] at this
      obtain ⟨a', ha'⟩ := Option.ne_none_iff_exists'.mp hsome
      have hmem' : a' ∈ st.apps := List.mem_of_find?_eq_some ha'
      have hai' : a'.app_id = i := by simpa using List.find?_some ha'
      have h3 := videoStreaming_start_stop st i a' ha' hids hpost
        (hfresh a' hmem')
      refine ⟨?_, hcount, h3, hsame h3⟩
      show (videoStreamingStarted st i).1.apps = _
      unfold videoStreamingStarted
      rw [ha']
      dsimp only
      apply List.map_congr_left
      intro b hb
      simp only [pushAt, TempKind.affects, TempKind.sidFor]
      by_cases hbi : b.app_id = i
      · rw [if_pos hbi, if_pos (by simpa using hbi)]
        have hba : b = a' :=
          List.inj_on_of_nodup_map hids hb hmem' (by rw [hbi, hai'])
        rw [hba]
      · rw [if_neg hbi, if_neg (by simpa using hbi)]

/-- Witness for C7: a single media application at FULL+AUDIBLE; the VR
session start/stop pair adds and removes exactly the VR layer and
restores the state. -/
theorem temp_layer_push_pop_symmetry_witness :
    (((mkSC [mkApp 1 true false false false
        fullAudibleState]).apps.map App.app_id).Nodup ∧
     (∀ b ∈ (mkSC [mkApp 1 true false false false fullAudibleState]).apps,
        b.postponed = none) ∧
     (∀ b ∈ (mkSC [mkApp 1 true false false false fullAudibleState]).apps,
        TempKind.vr.sidFor b ∉ b.temps)) ∧
    ((onEvent (mkSC [mkApp 1 true false false false fullAudibleState])
        TempKind.vr.onset).1.apps =
      (mkSC [mkApp 1 true false false false fullAudibleState]).apps.map
        (fun b => if TempKind.vr.affects b then
            App.pushTemp (TempKind.vr.sidFor b) b else b)) ∧
    (∀ b ∈ (mkSC [mkApp 1 true false false false fullAudibleState]).apps,
       TempKind.vr.affects b →
       (App.pushTemp (TempKind.vr.sidFor b) b).temps.count
         (TempKind.vr.sidFor b) = 1) ∧
    ((onEvent (onEvent (mkSC [mkApp 1 true false false false
        fullAudibleState]) TempKind.vr.onset).1 TempKind.vr.offset).1 =
      mkSC [mkApp 1 true false false false fullAudibleState]) ∧
    (∀ b ∈ (mkSC [mkApp 1 true false false false fullAudibleState]).apps,
       ∃ b' ∈ (onEvent (onEvent (mkSC [mkApp 1 true false false false
           fullAudibleState]) TempKind.vr.onset).1 TempKind.vr.offset).1.apps,
         b'.app_id = b.app_id ∧
         b'.current (mkSC [mkApp 1 true false false false
           fullAudibleState]).attenuated =
           b.current (mkSC [mkApp 1 true false false false
             fullAudibleState]).attenuated) :=
  ⟨⟨by decide, by decide, by decide⟩,
   temp_layer_push_pop_symmetry
     (mkSC [mkApp 1 true false false false fullAudibleState]) TempKind.vr
     (by decide) (by decide) (by decide)
     (fun i h => TempKind.noConfusion h)⟩

/-! ### Claims C1 and C2 — conflict resolution on FULL/LIMITED grants -/

/-- A media target at BACKGROUND next to a navi application in FULL
AUDIBLE and a second navi application holding LIMITED (ATTENUATED). -/
def c1Registry : SCState :=
  mkSC [mkApp 1 true false false false backgroundState,
        mkApp 2 false true false false fullAudibleState,
        mkApp 3 false true false false
          (mkState HMILevel.LIMITED AudioStreamingState.ATTENUATED)]

/-- C1 counterexample: when the media target (id 1) is granted FULL, the
navi application (id 2) — Audio, in FULL, with exclusivity classes not
overlapping the target's at all — is demoted to BACKGROUND and loses
AUDIBLE, not to `LIMITED + AUDIBLE` as the claim states, because another
navi application (id 3) already holds Regular level LIMITED (the I1
proviso of spec §4.3 the claim omits). -/
theorem full_grant_nonoverlap_counterexample :
    ((c1Registry.lookup 2).map (fun o =>
        (o.caps.isAudio, o.regular.level,
         o.caps.sharesAll (mkApp 1 true false false false
           backgroundState).caps)) =
      some (true, HMILevel.FULL, false)) ∧
    (((setRegularState c1Registry 1 fullAudibleState false).1.lookup 2).map
        (fun o => o.regular) =
      some backgroundState) ∧
    (((setRegularState c1Registry 1 fullAudibleState false).1.lookup 2).map
        (fun o => o.regular.level) ≠ some HMILevel.LIMITED) := by
  decide

/-- A media target at BACKGROUND next to a media+navi application holding
LIMITED AUDIBLE. -/
def c2Registry : SCState :=
  mkSC [mkApp 1 true false false false backgroundState,
        mkApp 2 true true false false limitedAudibleState]

/-- C2 counterexample: when the media target (id 1) is granted
FULL + AUDIBLE, the media+navi application (id 2) — of the same MEDIA
class, holding LIMITED with AUDIBLE — keeps its LIMITED + AUDIBLE Regular
unchanged instead of being demoted to BACKGROUND + NOT_AUDIBLE: its
classes do not fully overlap the target's, and spec §4.3 I2 leaves a
LIMITED holder with partially-overlapping classes unchanged under a FULL
grant. -/
theorem audible_grant_same_class_counterexample :
    ((c2Registry.lookup 2).map (fun o =>
        (o.caps.is_media, holdsAudio o)) = some (true, true)) ∧
    (((setRegularState c2Registry 1 fullAudibleState false).1.lookup 2).map
        (fun o => o.regular) =
      some limitedAudibleState) ∧
    (((setRegularState c2Registry 1 fullAudibleState false).1.lookup 2).map
        (fun o => o.regular.level) ≠ some HMILevel.BACKGROUND) := by
  decide

/-- When the target is registered, the candidate valid, no postponement
applies and no activation is requested, `SetRegularState` reduces to the
direct conflict-resolution application. -/
theorem setRegularState_direct (st : SCState) (tid : Nat) (r : HmiState)
    (t : App) (hl : st.lookup tid = some t) (hv : r.isValid = true)
    (hnp : ¬ (t.temps ≠ [] ∧ t.is_resuming = true)) :
    setRegularState st tid r false = applyRegular st t r := by
  unfold setRegularState
  rw [hl]
  dsimp only
  rw [if_neg (by simp [hv]), if_neg (by simpa using hnp),
    if_neg (by simp)]

/-- Discriminator for the HMI-status notification of one application. -/
def Notif.isStatusFor (i : Nat) : Notif → Bool
  | Notif.hmiStatus j => j = i
  | _ => false

/-- Discriminator for the HMI-level-changed callback of one application. -/
def Notif.isLevelChangedFor (i : Nat) : Notif → Bool
  | Notif.levelChanged j _ _ => j = i
  | _ => false

/-- A flatMap over contributions that all count zero counts zero. -/
theorem countP_flatMap_zero {α : Type} (l : List α) (f : α → List Notif)
    (p : Notif → Bool) (h : ∀ b ∈ l, (f b).countP p = 0) :
    (l.flatMap f).countP p = 0 := by
  induction l with
  | nil => rfl
  | cons y ys ih =>
      rw [List.flatMap_cons, List.countP_append,
        h y (List.mem_cons_self y ys),
        ih (fun b hb => h b (List.mem_cons_of_mem y hb))]

/-- In a duplicate-free flatMap where only one element can contribute, the
count is that element's contribution. -/
theorem countP_flatMap_single {α : Type} (l : List α) (f : α → List Notif)
    (p : Notif → Bool) (o : α) (ho : o ∈ l) (hnd : l.Nodup)
    (hothers : ∀ b ∈ l, b ≠ o → (f b).countP p = 0) :
    (l.flatMap f).countP p = (f o).countP p := by
  induction l with
  | nil => cases ho
  | cons y ys ih =>
      rw [List.flatMap_cons, List.countP_append]
      rcases List.mem_cons.mp ho with rfl | hoys
      · have hzero : (ys.flatMap f).countP p = 0 := by
          apply countP_flatMap_zero
          intro b hb
          apply hothers b (List.mem_cons_of_mem _ hb)
          intro e
          exact (List.nodup_cons.mp hnd).1 (e ▸ hb)
        rw [hzero]
        omega
      · have hy : (f y).countP p = 0 := by
          apply hothers y (List.mem_cons_self y ys)
          intro e
          exact (List.nodup_cons.mp hnd).1 (e ▸ hoys)
        rw [hy, ih hoys (List.nodup_cons.mp hnd).2
          (fun b hb => hothers b (List.mem_cons_of_mem y hb))]
        omega

/-- `OnStateChanged` emits the HMI-status notification of application `i`
exactly once when it concerns `i` and the states differ. -/
theorem countP_statusFor_onStateChanged (i j : Nat) (s1 s2 : HmiState) :
    (onStateChanged j s1 s2).countP (Notif.isStatusFor i) =
      if j = i ∧ s1 ≠ s2 then 1 else 0 := by
  unfold onStateChanged
  by_cases hji : j = i <;> by_cases hs : s1 = s2 <;>
    split_ifs <;>
      simp_all [List.countP_append, List.countP_cons, Notif.isStatusFor]

/-- `OnStateChanged` emits the HMI-level-changed callback of application
`i` exactly once when it concerns `i` and the states differ. -/
theorem countP_levelChangedFor_onStateChanged (i j : Nat)
    (s1 s2 : HmiState) :
    (onStateChanged j s1 s2).countP (Notif.isLevelChangedFor i) =
      if j = i ∧ s1 ≠ s2 then 1 else 0 := by
  unfold onStateChanged
  by_cases hji : j = i <;> by_cases hs : s1 = s2 <;>
    split_ifs <;>
      simp_all [List.countP_append, List.countP_cons, Notif.isLevelChangedFor]

/-- The post-change world a `SetRegularState` on target `t` with candidate
`r` hands to the Conflict Resolver (spec §4.3 Algorithm). -/
def postWorld (st : SCState) (t : App) (r : HmiState) : List App :=
  st.apps.map (fun a => if a.app_id = t.app_id then { a with regular := r }
    else a)

/-- The resolver leaves every non-target application in the Registry with
the Regular state `resolveOne` dictates (its old one when no demotion
applies). -/
theorem mem_applyRegular_resolved (st : SCState) (t o : App) (r : HmiState)
    (ho : o ∈ st.apps) (hoid : o.app_id ≠ t.app_id) :
    { o with regular :=
        Option.getD (resolveOne (postWorld st t r) t r o) o.regular } ∈
      (applyRegular st t r).1.apps := by
  have hwo : o ∈ postWorld st t r := by
    refine List.mem_map.mpr ⟨o, ho, ?_⟩
    rw [if_neg hoid]
  have happ : resolveApp (postWorld st t r) t r o =
      { o with regular :=
          Option.getD (resolveOne (postWorld st t r) t r o) o.regular } := by
    unfold resolveApp
    rw [if_neg hoid]
    cases resolveOne (postWorld st t r) t r o <;> rfl
  have : resolveApp (postWorld st t r) t r o ∈ (applyRegular st t r).1.apps :=
    List.mem_map_of_mem _ hwo
  rw [happ] at this
  exact this

/-- Ids of the post-change world coincide with the Registry's. -/
theorem postWorld_ids (st : SCState) (t : App) (r : HmiState) :
    (postWorld st t r).map App.app_id = st.apps.map App.app_id := by
  unfold postWorld
  rw [List.map_map]
  apply List.map_congr_left
  intro a _
  simp only [Function.comp_apply]
  split <;> rfl

/-- A non-target application demoted by the resolver to a state different
from its Regular receives exactly one notification matched by `p`, when
`p` counts exactly the `OnStateChanged` output concerning it and no
Temporary layers are active. -/
theorem countP_applyRegular_demoted (st : SCState) (t o : App)
    (r : HmiState) (p : Notif → Bool)
    (hp : ∀ j s1 s2, (onStateChanged j s1 s2).countP p =
      if j = o.app_id ∧ s1 ≠ s2 then 1 else 0)
    (hids : (st.apps.map App.app_id).Nodup)
    (htemps : ∀ b ∈ st.apps, b.temps = [])
    (ho : o ∈ st.apps) (hoid : o.app_id ≠ t.app_id) (s : HmiState)
    (hres : resolveOne (postWorld st t r) t r o = some s)
    (hneq : o.regular ≠ s) :
    (applyRegular st t r).2.countP p = 1 := by
  have hwids : (postWorld st t r).map App.app_id = st.apps.map App.app_id :=
    postWorld_ids st t r
  have hwidnd : ((postWorld st t r).map App.app_id).Nodup := by
    rw [hwids]; exact hids
  have hwnd : (postWorld st t r).Nodup := hwidnd.of_map
  have hwo : o ∈ postWorld st t r := by
    refine List.mem_map.mpr ⟨o, ho, ?_⟩
    rw [if_neg hoid]
  have hwtemps : ∀ b ∈ postWorld st t r, b.temps = [] := by
    intro b hb
    obtain ⟨c, hc, rfl⟩ := List.mem_map.mp hb
    have := htemps c hc
    split <;> simpa using this
  have hoo : o.temps = [] := htemps o ho
  unfold applyRegular
  dsimp only
  have hEq : (st.apps.map (fun a =>
      if a.app_id = t.app_id then { a with regular := r } else a)) =
      postWorld st t r := rfl
  rw [hEq, List.countP_append]
  have htarget : (onStateChanged t.app_id (t.current st.attenuated)
      (App.current st.attenuated { t with regular := r })).countP p = 0 := by
    rw [hp]
    exact if_neg (fun h => hoid h.1.symm)
  have hdem : ((postWorld st t r).flatMap (fun x =>
      if x.app_id = t.app_id then []
      else onStateChanged x.app_id (x.current st.attenuated)
        ((resolveApp (postWorld st t r) t r x).current
          st.attenuated))).countP p = 1 := by
    rw [countP_flatMap_single (postWorld st t r) _ p o hwo hwnd ?_]
    · rw [if_neg hoid]
      have h1 : o.current st.attenuated = o.regular :=
        current_of_no_temps st.attenuated o hoo
      have h2 : resolveApp (postWorld st t r) t r o =
          { o with regular := s } := by
        unfold resolveApp
        rw [if_neg hoid, hres]
      have h3 : (resolveApp (postWorld st t r) t r o).current
          st.attenuated = s := by
        rw [h2]
        exact current_of_no_temps st.attenuated _ hoo
      rw [h1, h3, hp]
      exact if_pos ⟨rfl, hneq⟩
    · intro b hb hbo
      by_cases hbt : b.app_id = t.app_id
      · rw [if_pos hbt]; rfl
      · rw [if_neg hbt, hp]
        refine if_neg (fun h => hbo ?_)
        exact List.inj_on_of_nodup_map hwidnd hb hwo h.1
  rw [htarget, hdem]

/-- The Regular state amended claim C1 predicts for an application that was
in FULL when the target took FULL: a non-Audio application goes to
BACKGROUND; an Audio application goes to LIMITED retaining AUDIBLE when it
is an audible holder sharing a class with an audibly-granted target, or
when no other Audio application sharing one of its classes already holds
LIMITED in the post-change world; otherwise it goes to BACKGROUND. -/
def fullGrantOutcome (world : List App) (t o : App) (r : HmiState) :
    HmiState :=
  if o.caps.isAudio = false then demoteBackground o.regular
  else if grantsAudio t.caps r && holdsAudio o &&
      o.caps.sharesSome t.caps then demoteLimitedAudible o.regular
  else if limitedPeerExists world o then demoteBackground o.regular
  else demoteLimitedAudible o.regular

/-- An application without audio capability shares no exclusivity class. -/
theorem sharesSome_eq_false_of_not_audio (a b : Caps)
    (h : a.isAudio = false) : a.sharesSome b = false := by
  unfold Caps.isAudio at h
  unfold Caps.sharesSome
  simp only [Bool.or_eq_false_iff] at h
  simp [h.1.1, h.1.2, h.2]

/-- Being of the same audio type is a special case of sharing an
exclusivity class. -/
theorem sharesSome_of_sameAudioType (a b : Caps)
    (h : a.sameAudioType b = true) : a.sharesSome b = true := by
  simp only [Caps.sameAudioType, Caps.sharesSome, Bool.or_eq_true,
    Bool.and_eq_true] at h ⊢
  tauto

/-- For an application in FULL with classes not fully overlapping an
audible target taking FULL, `resolveOne` yields exactly the amended C1
outcome. -/
theorem resolveOne_full_grant (world : List App) (t o : App) (r : HmiState)
    (hr : r.level = HMILevel.FULL) (hof : o.regular.level = HMILevel.FULL)
    (hnov : o.caps.isAudio = true → o.caps.sharesAll t.caps = false) :
    resolveOne world t r o = some (fullGrantOutcome world t o r) := by
  unfold resolveOne fullGrantOutcome
  by_cases hA : o.caps.isAudio = true
  · have hall := hnov hA
    by_cases hC1 : (grantsAudio t.caps r && holdsAudio o &&
        o.caps.sharesSome t.caps) = true
    · simp [hC1, hall, hr, hof, hA]
    · simp only [Bool.not_eq_true] at hC1
      by_cases hga : grantsAudio t.caps r = true
      · by_cases hho : holdsAudio o = true
        · have hss : o.caps.sharesSome t.caps = false := by
            by_cases hs : o.caps.sharesSome t.caps = true
            · rw [hga, hho, hs] at hC1
              simp at hC1
            · simpa using hs
          have hsat : o.caps.sameAudioType t.caps = false := by
            by_cases hs : o.caps.sameAudioType t.caps = true
            · rw [sharesSome_of_sameAudioType o.caps t.caps hs] at hss
              simp at hss
            · simpa using hs
          rcases Bool.eq_false_or_eq_true (limitedPeerExists world o) with
            hpe | hpe <;> simp [hga, hho, hss, hsat, hr, hof, hA, hpe]
        · simp only [Bool.not_eq_true] at hho
          rcases Bool.eq_false_or_eq_true (limitedPeerExists world o) with
            hpe | hpe <;> simp [hga, hho, hr, hof, hA, hpe]
      · simp only [Bool.not_eq_true] at hga
        rcases Bool.eq_false_or_eq_true (limitedPeerExists world o) with
          hpe | hpe <;> simp [hga, hr, hof, hA, hpe]
  · simp only [Bool.not_eq_true] at hA
    have hss := sharesSome_eq_false_of_not_audio o.caps t.caps hA
    have hsat : o.caps.sameAudioType t.caps = false := by
      by_cases hs : o.caps.sameAudioType t.caps = true
      · rw [sharesSome_of_sameAudioType o.caps t.caps hs] at hss
        simp at hss
      · simpa using hs
    simp [hss, hsat, hr, hof, hA]

/-- Demotions never leave an application at level FULL. -/
theorem fullGrantOutcome_level_ne_full (world : List App) (t o : App)
    (r : HmiState) : (fullGrantOutcome world t o r).level ≠ HMILevel.FULL := by
  unfold fullGrantOutcome
  split_ifs <;> simp [demoteBackground, demoteLimitedAudible]

/-- C1 (amended): in a Registry with unique ids and no active Temporary
layers, when `SetRegularState` moves a registered target's Regular state
to a valid FULL state (without requesting head-unit activation), every
other application whose Regular level is FULL and whose exclusivity
classes do not fully overlap the target's (trivially so when non-Audio)
ends with the Regular state `fullGrantOutcome` predicts — BACKGROUND for
a non-Audio application, LIMITED retaining AUDIBLE for an Audio
application unless another Audio application of one of its classes
already holds LIMITED (then BACKGROUND) — and receives exactly one
HMI-status notification and exactly one HMI-level-changed callback. -/
theorem full_grant_demotes_other_full (st : SCState) (tid : Nat)
    (r : HmiState) (t o : App)
    (hl : st.lookup tid = some t)
    (hv : r.isValid = true) (hr : r.level = HMILevel.FULL)
    (hids : (st.apps.map App.app_id).Nodup)
    (htemps : ∀ b ∈ st.apps, b.temps = [])
    (ho : o ∈ st.apps) (hoid : o.app_id ≠ t.app_id)
    (hof : o.regular.level = HMILevel.FULL)
    (hnov : o.caps.isAudio = true → o.caps.sharesAll t.caps = false) :
    { o with regular := fullGrantOutcome (postWorld st t r) t o r } ∈
      (setRegularState st tid r false).1.apps ∧
    (setRegularState st tid r false).2.countP
      (Notif.isStatusFor o.app_id) = 1 ∧
    (setRegularState st tid r false).2.countP
      (Notif.isLevelChangedFor o.app_id) = 1 := by
  have ht : t ∈ st.apps := List.mem_of_find?_eq_some hl
  have hdirect : setRegularState st tid r false = applyRegular st t r :=
    setRegularState_direct st tid r t hl hv (by simp [htemps t ht])
  have hres : resolveOne (postWorld st t r) t r o =
      some (fullGrantOutcome (postWorld st t r) t o r) :=
    resolveOne_full_grant (postWorld st t r) t o r hr hof hnov
  have hneq : o.regular ≠ fullGrantOutcome (postWorld st t r) t o r := by
    intro e
    exact fullGrantOutcome_level_ne_full (postWorld st t r) t o r (e ▸ hof)
  rw [hdirect]
  refine ⟨?_, ?_, ?_⟩
  · have := mem_applyRegular_resolved st t o r ho hoid
    rw [hres] at this
    exact this
  · exact countP_applyRegular_demoted st t o r _
      (fun j s1 s2 => countP_statusFor_onStateChanged o.app_id j s1 s2)
      hids htemps ho hoid _ hres hneq
  · exact countP_applyRegular_demoted st t o r _
      (fun j s1 s2 => countP_levelChangedFor_onStateChanged o.app_id j s1 s2)
      hids htemps ho hoid _ hres hneq

/-- Two non-audio applications, ids 1 (in FULL) and 2 (in BACKGROUND). -/
def twoSimpleApps : SCState :=
  mkSC [mkApp 1 false false false false fullState,
        mkApp 2 false false false false backgroundState]

/-- Witness for C1: granting FULL to the second simple application demotes
the first from FULL to BACKGROUND with exactly one HMI-status
notification and one level-changed callback. -/
theorem full_grant_demotes_other_full_witness :
    (twoSimpleApps.lookup 2 =
        some (mkApp 2 false false false false backgroundState) ∧
     (mkApp 1 false false false false fullState).regular.level =
        HMILevel.FULL) ∧
    ({ mkApp 1 false false false false fullState with
        regular := fullGrantOutcome
          (postWorld twoSimpleApps
            (mkApp 2 false false false false backgroundState) fullState)
          (mkApp 2 false false false false backgroundState)
          (mkApp 1 false false false false fullState) fullState } ∈
      (setRegularState twoSimpleApps 2 fullState false).1.apps ∧
     (setRegularState twoSimpleApps 2 fullState false).2.countP
       (Notif.isStatusFor 1) = 1 ∧
     (setRegularState twoSimpleApps 2 fullState false).2.countP
       (Notif.isLevelChangedFor 1) = 1) :=
  ⟨⟨by decide, by decide⟩,
   full_grant_demotes_other_full twoSimpleApps 2 fullState
     (mkApp 2 false false false false backgroundState)
     (mkApp 1 false false false false fullState)
     (by decide) (by decide) (by decide) (by decide) (by decide) (by decide)
     (by decide) (by decide) (by decide)⟩

/-- The Regular state amended claim C2 predicts for an audible holder
(AUDIBLE at FULL or LIMITED) sharing an exclusivity class with an Audio
target granted AUDIBLE at FULL or LIMITED: a FULL holder under a FULL
grant goes to BACKGROUND + NOT_AUDIBLE when all of its classes lie among
the target's and to LIMITED retaining AUDIBLE otherwise; every other
sharing holder goes to BACKGROUND + NOT_AUDIBLE exactly when it is of
the same audio type as the target (`Caps.sameAudioType`) and keeps its
Regular unchanged otherwise. -/
def audibleGrantOutcome (t o : App) (r : HmiState) : HmiState :=
  if r.level = HMILevel.FULL && o.regular.level = HMILevel.FULL then
    (if o.caps.sharesAll t.caps then demoteBackground o.regular
     else demoteLimitedAudible o.regular)
  else if o.caps.sameAudioType t.caps then demoteBackground o.regular
  else o.regular

/-- For an audible holder sharing a class with an audibly granted Audio
target, `resolveOne` yields exactly the amended C2 outcome. -/
theorem resolveOne_audible_grant (world : List App) (t o : App)
    (r : HmiState) (hta : t.caps.isAudio = true)
    (hra : r.audio = AudioStreamingState.AUDIBLE)
    (hrl : r.level = HMILevel.FULL ∨ r.level = HMILevel.LIMITED)
    (hhold : holdsAudio o = true)
    (hshare : o.caps.sharesSome t.caps = true) :
    Option.getD (resolveOne world t r o) o.regular =
      audibleGrantOutcome t o r := by
  have hga : grantsAudio t.caps r = true := by
    unfold grantsAudio
    rcases hrl with h | h <;> simp [hta, hra, h]
  unfold resolveOne audibleGrantOutcome
  by_cases hff : r.level = HMILevel.FULL ∧ o.regular.level = HMILevel.FULL
  · obtain ⟨h1, h2⟩ := hff
    by_cases hall : o.caps.sharesAll t.caps = true <;>
      simp [hga, hhold, hshare, h1, h2, hall]
  · have hor : r.level ≠ HMILevel.FULL ∨
        o.regular.level ≠ HMILevel.FULL := by
      by_contra hcon
      push_neg at hcon
      exact hff ⟨hcon.1, hcon.2⟩
    by_cases hsat : o.caps.sameAudioType t.caps = true
    · rcases hor with h | h <;> simp [hga, hhold, hshare, hsat, h]
    · simp only [Bool.not_eq_true] at hsat
      rcases hor with h | h <;> simp [hga, hhold, hshare, hsat, h]

/-- C2 (amended): when `SetRegularState` grants a registered Audio target
a valid Regular state with AUDIBLE audio at level FULL or LIMITED
(directly: no postponement, no activation request), every other
application holding AUDIBLE at FULL or LIMITED that shares an exclusivity
class with the target ends with the Regular state `audibleGrantOutcome`
predicts — a FULL holder under a FULL grant goes to
BACKGROUND + NOT_AUDIBLE when all of its classes lie among the target's
and to LIMITED retaining AUDIBLE otherwise; every other sharing holder
goes to BACKGROUND + NOT_AUDIBLE exactly when it is of the same audio
type as the target and is otherwise unchanged.  The statement quantifies
over every such peer at once: all conflicting peers are demoted
simultaneously, none is given priority. -/
theorem audible_grant_demotes_same_class (st : SCState) (tid : Nat)
    (r : HmiState) (t o : App)
    (hl : st.lookup tid = some t) (hv : r.isValid = true)
    (hta : t.caps.isAudio = true)
    (hra : r.audio = AudioStreamingState.AUDIBLE)
    (hrl : r.level = HMILevel.FULL ∨ r.level = HMILevel.LIMITED)
    (hnp : ¬ (t.temps ≠ [] ∧ t.is_resuming = true))
    (ho : o ∈ st.apps) (hoid : o.app_id ≠ t.app_id)
    (hhold : holdsAudio o = true)
    (hshare : o.caps.sharesSome t.caps = true) :
    { o with regular := audibleGrantOutcome t o r } ∈
      (setRegularState st tid r false).1.apps := by
  rw [setRegularState_direct st tid r t hl hv hnp]
  have hm := mem_applyRegular_resolved st t o r ho hoid
  rw [resolveOne_audible_grant (postWorld st t r) t o r hta hra hrl hhold
    hshare] at hm
  exact hm

/-- A media target at BACKGROUND (id 2) next to a media application
holding FULL + AUDIBLE (id 1). -/
def twoMediaApps : SCState :=
  mkSC [mkApp 1 true false false false fullAudibleState,
        mkApp 2 true false false false backgroundState]

/-- Witness for C2: granting FULL + AUDIBLE to the second media
application demotes the first — same MEDIA class, holding FULL AUDIBLE —
to BACKGROUND + NOT_AUDIBLE. -/
theorem audible_grant_demotes_same_class_witness :
    (twoMediaApps.lookup 2 =
        some (mkApp 2 true false false false backgroundState) ∧
     holdsAudio (mkApp 1 true false false false fullAudibleState) = true ∧
     Caps.sharesSome
       (mkApp 1 true false false false fullAudibleState).caps
       (mkApp 2 true false false false backgroundState).caps = true) ∧
    { mkApp 1 true false false false fullAudibleState with
        regular := audibleGrantOutcome
          (mkApp 2 true false false false backgroundState)
          (mkApp 1 true false false false fullAudibleState)
          fullAudibleState } ∈
      (setRegularState twoMediaApps 2 fullAudibleState false).1.apps :=
  ⟨⟨by decide, by decide, by decide⟩,
   audible_grant_demotes_same_class twoMediaApps 2 fullAudibleState
     (mkApp 2 true false false false backgroundState)
     (mkApp 1 true false false false fullAudibleState)
     (by decide) (by decide) (by decide) (by decide) (Or.inl (by decide))
     (by decide) (by decide) (by decide) (by decide) (by decide)⟩

end SdlCore
